import Mathlib

/-!
Shallow embedding of `src/app.py`, a single-file chat gateway: the
conversation data model, the backend adapter functions
(`chat_with_openai`, `chat_with_dialoGPT`, `chat_with_dummy`,
`chat_with_llama3_2`, `chat_with_deepseekr1_7b`), the dispatch table
`MODEL_FUNCTIONS`, and the `/chat` request handler.

External effects are modelled as oracle functions collected in an `Env`:
the OpenAI chat-completion call, the optional transformers pipeline
(`None` when the import failed), and `subprocess.run`.  A Python
exception escaping a function is modelled as `Except.error`; a normal
return of reply text is `Except.ok`.
-/

namespace Toby

/-- One conversation turn, a Python dict `{"role": r, "content": c}`
with both fields present (the well-typed shape the handlers index). -/
structure Msg where
  role : String
  content : String
  deriving Repr, DecidableEq

/-- The message object inside an OpenAI completion choice. -/
structure OpenAIMessage where
  content : String
  deriving Repr, DecidableEq

/-- One element of `response['choices']`. -/
structure OpenAIChoice where
  message : OpenAIMessage
  deriving Repr, DecidableEq

/-- The OpenAI chat-completion response, reduced to the part the code
reads: its ordered `choices` list. -/
structure OpenAIResponse where
  choices : List OpenAIChoice
  deriving Repr, DecidableEq

/-- Outcome of spawning an external process with
`subprocess.run(args, capture_output=True, text=True, check=True)`:
either the process ran to completion with an exit code and captured
stdout/stderr, or the spawn itself raised an exception other than
`CalledProcessError` (e.g. `FileNotFoundError` when the executable is
not on the search path), carried as its stringified form. -/
inductive SpawnResult where
  | completed (exitCode : Nat) (stdout stderr : String)
  | raised (exn : String)
  deriving Repr, DecidableEq

/-- The process-wide environment the adapters read: the remote OpenAI
call (`Except.error` = the call raised, carrying `str(e)`), the
`dialoGPT_pipeline` global (`none` when transformers failed to import,
otherwise the pipeline as a total function from flattened input text to
the list `generated_responses`), and `subprocess.run`. -/
structure Env where
  openai_ChatCompletion_create : List Msg → Except String OpenAIResponse
  dialoGPT_pipeline : Option (String → List String)
  subprocess_run : List String → SpawnResult

/-- Python `sep.join(l)`. -/
def strJoin (sep : String) : List String → String
  | [] => ""
  | [s] => s
  | s :: s2 :: rest => s ++ sep ++ strJoin sep (s2 :: rest)

/-- The line `f"{msg['role']}: {msg['content']}"` built for each turn. -/
def turnLine (m : Msg) : String :=
  m.role ++ ": " ++ m.content

/-- `combined_history = "\n".join([f"{msg['role']}: {msg['content']}" for msg in conversation])`
(lines 64, 84 and 104 of `src/app.py`). -/
def combinedHistory (conversation : List Msg) : String :=
  strJoin "\n" (conversation.map turnLine)

/-- `(combined_history + "\nuser: " + prompt) if combined_history else prompt`
(lines 65, 85 and 105 of `src/app.py`; the guard is Python string
truthiness, i.e. non-emptiness).  This flattening is performed by the
same two lines of code in `chat_with_dialoGPT`, `chat_with_llama3_2`
and `chat_with_deepseekr1_7b`. -/
def flattenHistory (conversation : List Msg) (prompt : String) : String :=
  let combined_history := combinedHistory conversation
  if combined_history ≠ "" then combined_history ++ "\nuser: " ++ prompt
  else prompt

/-- CPython whitespace stripped by `str.strip()` on ASCII text. -/
def isPythonSpace (c : Char) : Bool :=
  c = ' ' || c = '\t' || c = '\n' || c = '\r' || c = '\x0b' || c = '\x0c'

/-- Python `s.strip()`: remove leading and trailing whitespace. -/
def pyStrip (s : String) : String :=
  ⟨((s.data.dropWhile isPythonSpace).reverse.dropWhile isPythonSpace).reverse⟩

/-- `chat_with_openai` (lines 40-54): appends the prompt as a user turn,
calls the remote API inside `try`, and reads
`response['choices'][0]['message']['content']`; any exception `e` —
including the `IndexError` from an empty `choices` list — is caught and
turned into `f"Error calling OpenAI API: {e}"`.  Every path returns. -/
def chat_with_openai (env : Env) (conversation : List Msg) (prompt : String) :
    Except String String :=
  let messages := conversation ++ [⟨"user", prompt⟩]
  let reply : String :=
    match env.openai_ChatCompletion_create messages with
    | .error e => "Error calling OpenAI API: " ++ e
    | .ok response =>
      match response.choices with
      | [] => "Error calling OpenAI API: list index out of range"
      | choice :: _ => choice.message.content
  .ok reply

/-- `chat_with_dialoGPT` (lines 56-69): fixed unavailability reply when
the pipeline global is `None` (falsy); otherwise flatten the history,
run the pipeline, and take the last generated response, or
`"No response."` when there is none.  Every path returns. -/
def chat_with_dialoGPT (env : Env) (conversation : List Msg) (prompt : String) :
    Except String String :=
  .ok (match env.dialoGPT_pipeline with
    | none => "DialoGPT model not available. Please install transformers."
    | some pipe =>
      match (pipe (flattenHistory conversation prompt)).getLast? with
      | some r => r
      | none => "No response.")

/-- `chat_with_dummy` (lines 71-73). -/
def chat_with_dummy (_env : Env) (_conversation : List Msg) (prompt : String) :
    Except String String :=
  .ok ("Dummy response to: " ++ prompt)

/-- `chat_with_llama3_2` (lines 77-96): flatten the history, run
`["ollama", "run", "llama3.2", full_prompt]` with `check=True`.  A zero
exit yields `result.stdout.strip()`; a non-zero exit raises
`CalledProcessError`, which the `except` clause converts to
`f"Error running llama3.2: {e.stderr}"`; any other spawn exception
(e.g. `FileNotFoundError`) is not caught and propagates. -/
def chat_with_llama3_2 (env : Env) (conversation : List Msg) (prompt : String) :
    Except String String :=
  let full_prompt := flattenHistory conversation prompt
  match env.subprocess_run ["ollama", "run", "llama3.2", full_prompt] with
  | .completed 0 stdout _ => .ok (pyStrip stdout)
  | .completed _ _ stderr => .ok ("Error running llama3.2: " ++ stderr)
  | .raised exn => .error exn

/-- `chat_with_deepseekr1_7b` (lines 98-117): identical to
`chat_with_llama3_2` except for the command-line model name
`deepseekr1-7b` and the error prefix `"Error running deepseekr1 7b: "`. -/
def chat_with_deepseekr1_7b (env : Env) (conversation : List Msg) (prompt : String) :
    Except String String :=
  let full_prompt := flattenHistory conversation prompt
  match env.subprocess_run ["ollama", "run", "deepseekr1-7b", full_prompt] with
  | .completed 0 stdout _ => .ok (pyStrip stdout)
  | .completed _ _ stderr => .ok ("Error running deepseekr1 7b: " ++ stderr)
  | .raised exn => .error exn

/-- The type of a dispatch-table entry. -/
abbrev Adapter := Env → List Msg → String → Except String String

/-- The first `MODEL_FUNCTIONS` dict literal (lines 120-126), with all
five entries in registration order.  It is immediately shadowed by the
rebinding below and never read. -/
def MODEL_FUNCTIONS_initial : List (String × Adapter) :=
  [("OpenAI GPT-3.5-turbo", chat_with_openai),
   ("DialoGPT", chat_with_dialoGPT),
   ("LLama3.2 (Ollama)", chat_with_llama3_2),
   ("Deepseekr1 7b (Ollama)", chat_with_deepseekr1_7b),
   ("Dummy", chat_with_dummy)]

/-- The second `MODEL_FUNCTIONS` dict literal (lines 129-133).  Python
rebinds the same global name, so this three-entry table is the one in
effect for dispatch and for `AVAILABLE_MODELS`. -/
def MODEL_FUNCTIONS : List (String × Adapter) :=
  [("OpenAI GPT-3.5-turbo", chat_with_openai),
   ("DialoGPT", chat_with_dialoGPT),
   ("Dummy", chat_with_dummy)]

/-- `AVAILABLE_MODELS = list(MODEL_FUNCTIONS.keys())` (line 135):
the keys in insertion order. -/
def AVAILABLE_MODELS : List String :=
  MODEL_FUNCTIONS.map Prod.fst

/-- Lines 239-240 of the `/chat` handler:
`MODEL_FUNCTIONS.get(model_name, chat_with_dummy)` applied to the
conversation and prompt — the Dispatcher of the spec. -/
def dispatch (env : Env) (model_name : String) (conversation : List Msg)
    (prompt : String) : Except String String :=
  let model_func :=
    match MODEL_FUNCTIONS.lookup model_name with
    | some f => f
    | none => chat_with_dummy
  model_func env conversation prompt

/-- A parsed JSON-object request body for `/chat`, each top-level field
optional (`data.get` supplies the default when a key is absent). -/
structure ChatRequest where
  conversation : Option (List Msg)
  prompt : Option String
  model : Option String

/-- The `/chat` route handler `chat` (lines 232-241):
`data.get('conversation', [])`, `data.get('prompt', '')`,
`data.get('model', 'Dummy')`, then dispatch. -/
def chat (env : Env) (data : ChatRequest) : Except String String :=
  let conversation_history := data.conversation.getD []
  let prompt := data.prompt.getD ""
  let model_name := data.model.getD "Dummy"
  dispatch env model_name conversation_history prompt

/-- `true` iff the call ended in an uncaught Python exception
propagating to the caller rather than a returned reply string. -/
def isRaised : Except String String → Bool
  | .error _ => true
  | .ok _ => false

/-- An environment for concrete evaluations: the remote call raises,
transformers is absent, and spawning raises `FileNotFoundError`
(stringified) because no executable is on the search path. -/
def stubEnv : Env where
  openai_ChatCompletion_create := fun _ => .error "err"
  dialoGPT_pipeline := none
  subprocess_run := fun _ => .raised "FileNotFoundError"

/-- An environment whose remote OpenAI call raises with message
`"boom"`. -/
def openaiErrEnv : Env where
  openai_ChatCompletion_create := fun _ => .error "boom"
  dialoGPT_pipeline := none
  subprocess_run := fun _ => .raised "FileNotFoundError"

/-- An environment whose spawned process succeeds with stdout
`"  result text \n"`. -/
def spawnOkEnv : Env where
  openai_ChatCompletion_create := fun _ => .error "err"
  dialoGPT_pipeline := none
  subprocess_run := fun _ => .completed 0 "  result text \n" ""

/-- An environment whose spawned process exits with code 1 and stderr
`"boom"`. -/
def spawnFailEnv : Env where
  openai_ChatCompletion_create := fun _ => .error "err"
  dialoGPT_pipeline := none
  subprocess_run := fun _ => .completed 1 "" "boom"

/-! ## Helper lemmas -/

lemma turnLine_length (m : Msg) :
    (turnLine m).length = m.role.length + 2 + m.content.length := by
  simp only [turnLine, String.length_append]
  rfl

lemma strJoin_cons_length (sep s : String) (l : List String) :
    s.length ≤ (strJoin sep (s :: l)).length := by
  cases l with
  | nil => simp [strJoin]
  | cons b bs =>
    simp only [strJoin, String.length_append]
    omega

lemma combinedHistory_cons_ne_empty (t : Msg) (ts : List Msg) :
    combinedHistory (t :: ts) ≠ "" := by
  intro h
  have h1 := strJoin_cons_length "\n" (turnLine t) (ts.map turnLine)
  have h2 := turnLine_length t
  have h0 : (combinedHistory (t :: ts)).length = 0 := by rw [h]; rfl
  rw [combinedHistory, List.map_cons] at h0
  omega

lemma strJoin_append_single (sep x : String) (l : List String) (h : l ≠ []) :
    strJoin sep (l ++ [x]) = strJoin sep l ++ sep ++ x := by
  induction l with
  | nil => exact absurd rfl h
  | cons a as ih =>
    cases as with
    | nil => simp [strJoin]
    | cons b bs =>
      have ih2 := ih (by simp)
      simp only [List.cons_append] at ih2 ⊢
      simp only [strJoin] at ih2 ⊢
      rw [ih2]
      simp [String.append_assoc]

lemma lookup_MODEL_FUNCTIONS (name : String) (f : Adapter)
    (h : MODEL_FUNCTIONS.lookup name = some f) :
    f = chat_with_openai ∨ f = chat_with_dialoGPT ∨ f = chat_with_dummy := by
  simp only [ MODEL_FUNCTIONS, List.lookup] at h
  repeat' split at h
  all_goals first
    | exact Or.inl (Option.some.inj h).symm
    | exact Or.inr (Or.inl (Option.some.inj h).symm)
    | exact Or.inr (Or.inr (Option.some.inj h).symm)
    | simp at h

/-! ## Claim theorems -/

/-- C9: the stub adapter's result depends only on the prompt: for every
prompt `P` and any two conversations, dispatching `"Dummy"` yields the
same reply `"Dummy response to: <P>"`; the conversation never
interferes with the output. -/
theorem dummy_ignores_conversation (env : Env) (c₁ c₂ : List Msg) (P : String) :
    dispatch env "Dummy" c₁ P = dispatch env "Dummy" c₂ P ∧
    dispatch env "Dummy" c₁ P = Except.ok ("Dummy response to: " ++ P) :=
  ⟨rfl, rfl⟩

/-- C10: the `/chat` handler supplies defaults for every missing
top-level field of a JSON-object body: a missing `conversation` acts as
the empty list, a missing `prompt` as the empty string, a missing
`model` as `"Dummy"`; a body with all three fields absent yields the
reply `"Dummy response to: "` rather than a rejection. -/
theorem chat_route_defaults (env : Env) :
    (∀ (p m : Option String),
        chat env ⟨none, p, m⟩ = chat env ⟨some [], p, m⟩) ∧
    (∀ (c : Option (List Msg)) (m : Option String),
        chat env ⟨c, none, m⟩ = chat env ⟨c, some "", m⟩) ∧
    (∀ (c : Option (List Msg)) (p : Option String),
        chat env ⟨c, p, none⟩ = chat env ⟨c, p, some "Dummy"⟩) ∧
    chat env ⟨none, none, none⟩ = Except.ok "Dummy response to: " :=
  ⟨fun _ _ => rfl, fun _ _ => rfl, fun _ _ => rfl, rfl⟩

/-- C5: the second `MODEL_FUNCTIONS` literal shadows the first, so the
effective dispatch table and `AVAILABLE_MODELS` hold exactly the keys
`"OpenAI GPT-3.5-turbo"`, `"DialoGPT"`, `"Dummy"` in registration order
(including the stub identifier `"Dummy"`), and the two Ollama
identifiers of the shadowed literal fall through to the stub reply. -/
theorem model_functions_shadowing :
    MODEL_FUNCTIONS_initial.map Prod.fst =
      ["OpenAI GPT-3.5-turbo", "DialoGPT", "LLama3.2 (Ollama)",
       "Deepseekr1 7b (Ollama)", "Dummy"] ∧
    MODEL_FUNCTIONS.map Prod.fst = ["OpenAI GPT-3.5-turbo", "DialoGPT", "Dummy"] ∧
    AVAILABLE_MODELS = ["OpenAI GPT-3.5-turbo", "DialoGPT", "Dummy"] ∧
    "Dummy" ∈ AVAILABLE_MODELS ∧
    (∀ (env : Env) (conv : List Msg) (P : String),
        dispatch env "LLama3.2 (Ollama)" conv P =
          Except.ok ("Dummy response to: " ++ P)) ∧
    (∀ (env : Env) (conv : List Msg) (P : String),
        dispatch env "Deepseekr1 7b (Ollama)" conv P =
          Except.ok ("Dummy response to: " ++ P)) :=
  ⟨rfl, rfl, rfl, by simp [AVAILABLE_MODELS, MODEL_FUNCTIONS],
   fun _ _ _ => rfl, fun _ _ _ => rfl⟩

/-- C7: when the transformers import failed at startup (the pipeline
global is `None`), dispatching `"DialoGPT"` returns the fixed string
`"DialoGPT model not available. Please install transformers."` for
every conversation and prompt, independent of the inputs. -/
theorem dialoGPT_unavailable_fixed_reply (env : Env) (conv : List Msg)
    (P : String) (h : env.dialoGPT_pipeline = none) :
    dispatch env "DialoGPT" conv P =
      Except.ok "DialoGPT model not available. Please install transformers." := by
  show chat_with_dialoGPT env conv P = _
  simp [chat_with_dialoGPT, h]

/-- Witness for C7 at a concrete environment and inputs. -/
theorem dialoGPT_unavailable_fixed_reply_witness :
    dispatch stubEnv "DialoGPT" [] "hi" =
      Except.ok "DialoGPT model not available. Please install transformers." :=
  dialoGPT_unavailable_fixed_reply stubEnv [] "hi" rfl

/-- C1: dispatching with a model identifier that is not a key of the
effective `MODEL_FUNCTIONS` table falls back to the deterministic stub
and returns exactly `"Dummy response to: <P>"`; an unrecognized
identifier is never an error. -/
theorem dispatch_unknown_model_uses_dummy (env : Env) (name : String)
    (conv : List Msg) (P : String) (h : name ∉ MODEL_FUNCTIONS.map Prod.fst) :
    dispatch env name conv P = Except.ok ("Dummy response to: " ++ P) := by
  simp only [ MODEL_FUNCTIONS, List.map_cons, List.map_nil, List.mem_cons,
    List.not_mem_nil, or_false, not_or] at h
  obtain ⟨h1, h2, h3⟩ := h
  have e1 : (name == "OpenAI GPT-3.5-turbo") = false := beq_eq_false_iff_ne.mpr h1
  have e2 : (name == "DialoGPT") = false := beq_eq_false_iff_ne.mpr h2
  have e3 : (name == "Dummy") = false := beq_eq_false_iff_ne.mpr h3
  simp [dispatch, MODEL_FUNCTIONS, List.lookup, e1, e2, e3, chat_with_dummy]

/-- Witness for C1 at the concrete unregistered identifier `"gpt-5"`. -/
theorem dispatch_unknown_model_uses_dummy_witness :
    dispatch stubEnv "gpt-5" [] "hi" = Except.ok ("Dummy response to: " ++ "hi") :=
  dispatch_unknown_model_uses_dummy stubEnv "gpt-5" [] "hi" (by decide)

/-- C2: for every well-typed model identifier, conversation and prompt,
a dispatch call returns a reply string and never raises to the caller:
every adapter reachable through the effective table contains its
backend failures, so the dispatcher's contract is total. -/
theorem dispatch_total (env : Env) (name : String) (conv : List Msg) (P : String) :
    ∃ reply, dispatch env name conv P = Except.ok reply := by
  unfold dispatch
  cases h : MODEL_FUNCTIONS.lookup name with
  | none => exact ⟨_, rfl⟩
  | some f =>
    rcases lookup_MODEL_FUNCTIONS name f h with rfl | rfl | rfl
    · exact ⟨_, rfl⟩
    · exact ⟨_, rfl⟩
    · exact ⟨_, rfl⟩

/-- C3: history flattening (shared by `chat_with_dialoGPT`,
`chat_with_llama3_2` and `chat_with_deepseekr1_7b`): for a non-empty
conversation the flattened text is the lines `"<role>: <content>"` in
chronological order joined by newlines followed by a final line
`"user: <prompt>"` (so `[{user,"hi"},{assistant,"hello"}]` with prompt
`"bye"` yields `"user: hi\nassistant: hello\nuser: bye"`); for an empty
conversation it is exactly the prompt, with no role prefix. -/
theorem flatten_history_spec :
    (∀ prompt : String, flattenHistory [] prompt = prompt) ∧
    (∀ (t : Msg) (ts : List Msg) (prompt : String),
        flattenHistory (t :: ts) prompt =
          strJoin "\n" ((t :: ts).map turnLine ++ ["user: " ++ prompt])) ∧
    flattenHistory [⟨"user", "hi"⟩, ⟨"assistant", "hello"⟩] "bye" =
      "user: hi\nassistant: hello\nuser: bye" := by
  refine ⟨fun prompt => rfl, fun t ts prompt => ?_, by decide⟩
  have hne := combinedHistory_cons_ne_empty t ts
  have happ := strJoin_append_single "\n" ("user: " ++ prompt)
      ((t :: ts).map turnLine) (by simp)
  rw [happ]
  simp only [flattenHistory]
  rw [if_pos hne]
  show combinedHistory (t :: ts) ++ "\nuser: " ++ prompt =
    combinedHistory (t :: ts) ++ "\n" ++ ("user: " ++ prompt)
  have hlit : ("\nuser: " : String) = "\n" ++ "user: " := rfl
  rw [hlit, ← String.append_assoc, String.append_assoc]

/-- C4 counterexample: with an executable missing from the search path
the spawn raises `FileNotFoundError`, which `chat_with_llama3_2` does
not catch (its `except` clause only handles `CalledProcessError`), so
the failure propagates as a raised fault instead of the claimed
`"Error running llama3.2: ..."` reply string. -/
theorem ollama_spawn_error_counterexample :
    chat_with_llama3_2 stubEnv [] "hi" = Except.error "FileNotFoundError" ∧
    isRaised (chat_with_llama3_2 stubEnv [] "hi") = true ∧
    chat_with_llama3_2 stubEnv [] "hi" ≠
      Except.ok ("Error running llama3.2: " ++ "FileNotFoundError") :=
  ⟨rfl, rfl, fun hEq => Except.noConfusion hEq⟩

/-- C4 amended: a non-zero exit of the spawned process is caught by the
external-process adapters and converted to the reply string
`"Error running <model-name>: <captured standard-error>"`, but an
executable-not-found or other spawn error is not caught (only
`subprocess.CalledProcessError` is) and propagates as a raised fault. -/
theorem ollama_error_handling_amended (env : Env) (conv : List Msg) (P : String)
    (k : Nat) (out err exn : String) :
    (env.subprocess_run ["ollama", "run", "llama3.2", flattenHistory conv P] =
        SpawnResult.completed (k + 1) out err →
      chat_with_llama3_2 env conv P =
        Except.ok ("Error running llama3.2: " ++ err)) ∧
    (env.subprocess_run ["ollama", "run", "deepseekr1-7b", flattenHistory conv P] =
        SpawnResult.completed (k + 1) out err →
      chat_with_deepseekr1_7b env conv P =
        Except.ok ("Error running deepseekr1 7b: " ++ err)) ∧
    (env.subprocess_run ["ollama", "run", "llama3.2", flattenHistory conv P] =
        SpawnResult.raised exn →
      chat_with_llama3_2 env conv P = Except.error exn) ∧
    (env.subprocess_run ["ollama", "run", "deepseekr1-7b", flattenHistory conv P] =
        SpawnResult.raised exn →
      chat_with_deepseekr1_7b env conv P = Except.error exn) := by
  refine ⟨fun h => ?_, fun h => ?_, fun h => ?_, fun h => ?_⟩
  · simp [chat_with_llama3_2, h]
  · simp [chat_with_deepseekr1_7b, h]
  · simp [chat_with_llama3_2, h]
  · simp [chat_with_deepseekr1_7b, h]

/-- Witness for the amended C4: exit code 1 with stderr `"boom"` yields
the reply `"Error running llama3.2: boom"`. -/
theorem ollama_error_handling_amended_witness :
    chat_with_llama3_2 spawnFailEnv [] "p" =
      Except.ok ("Error running llama3.2: " ++ "boom") :=
  (ollama_error_handling_amended spawnFailEnv [] "p" 0 "" "boom" "x").1 rfl

/-- C6: if the remote chat-completion call inside `chat_with_openai`
fails for any reason — the call raises, or the response is malformed
with an empty `choices` list (whose extraction raises `IndexError`,
stringified by CPython as `"list index out of range"`) — the adapter
returns exactly `"Error calling OpenAI API: <stringified error>"`; on
success it returns the first completion's message content; every call
returns a reply and never raises to its caller. -/
theorem chat_with_openai_spec (env : Env) (conv : List Msg) (P : String) :
    (∀ e, env.openai_ChatCompletion_create (conv ++ [⟨"user", P⟩]) =
        Except.error e →
      chat_with_openai env conv P =
        Except.ok ("Error calling OpenAI API: " ++ e)) ∧
    (∀ resp : OpenAIResponse,
      env.openai_ChatCompletion_create (conv ++ [⟨"user", P⟩]) =
        Except.ok resp →
      resp.choices = [] →
      chat_with_openai env conv P =
        Except.ok ("Error calling OpenAI API: " ++ "list index out of range")) ∧
    (∀ (resp : OpenAIResponse) (choice : OpenAIChoice)
        (rest : List OpenAIChoice),
      env.openai_ChatCompletion_create (conv ++ [⟨"user", P⟩]) =
        Except.ok resp →
      resp.choices = choice :: rest →
      chat_with_openai env conv P = Except.ok choice.message.content) ∧
    (∃ reply, chat_with_openai env conv P = Except.ok reply) := by
  refine ⟨fun e he => ?_, fun resp hr hc => ?_,
    fun resp choice rest hr hc => ?_, ⟨_, rfl⟩⟩
  · simp [chat_with_openai, he]
  · simp [chat_with_openai, hr, hc]
  · simp [chat_with_openai, hr, hc]

/-- Witness for C6: a remote call raising with message `"boom"` yields
the reply `"Error calling OpenAI API: boom"`. -/
theorem chat_with_openai_spec_witness :
    chat_with_openai openaiErrEnv [] "hi" =
      Except.ok ("Error calling OpenAI API: " ++ "boom") :=
  (chat_with_openai_spec openaiErrEnv [] "hi").1 "boom" rfl

/-- C8: when the spawned external process succeeds (exit code 0), the
adapter's reply is exactly the captured standard output with leading
and trailing whitespace removed. -/
theorem ollama_success_trims_stdout (env : Env) (conv : List Msg) (P : String)
    (out err : String) :
    (env.subprocess_run ["ollama", "run", "llama3.2", flattenHistory conv P] =
        SpawnResult.completed 0 out err →
      chat_with_llama3_2 env conv P = Except.ok (pyStrip out)) ∧
    (env.subprocess_run ["ollama", "run", "deepseekr1-7b", flattenHistory conv P] =
        SpawnResult.completed 0 out err →
      chat_with_deepseekr1_7b env conv P = Except.ok (pyStrip out)) := by
  refine ⟨fun h => ?_, fun h => ?_⟩
  · simp [chat_with_llama3_2, h]
  · simp [chat_with_deepseekr1_7b, h]

/-- Witness for C8: stdout `"  result text \n"` yields exactly the
reply `"result text"`. -/
theorem ollama_success_trims_stdout_witness :
    chat_with_llama3_2 spawnOkEnv [] "p" = Except.ok "result text" := by
  have h := (ollama_success_trims_stdout spawnOkEnv [] "p" "  result text \n" "").1 rfl
  exact h

end Toby
